import Mathlib

/-!
Verification of the ssm-cache caching layer (ssm_cache/cache.py and
ssm_cache/filters.py): a shallow embedding of the refresh/expiry state
machine, group coordination, version parsing and filter bounds, with
theorems settling the specified properties.

Modelling conventions:
* timestamps are naturals (seconds); `datetime.utcnow()` becomes an explicit
  `now : Nat` argument threaded through the stateful operations;
* Python objects are immutable records passed and returned explicitly; object
  identity is modelled by an allocation counter `oid`;
* the boto3 SSM client is a pure `Client` record (name store plus path query);
  `WithDecryption` is carried but the model store already holds decrypted
  values, so the flag does not change lookups;
* exceptions become explicit error values; operations that in Python may
  leave partial mutations behind when they raise return the mutated state
  together with `Option CacheError`.
-/

set_option linter.unusedVariables false

/-- Error taxonomy of the library: `InvalidParameterError`, `InvalidPathError`,
`InvalidVersionError` from cache.py plus Python builtins (`ValueError`). -/
inductive CacheError where
  | invalidParameter (msg : String)
  | invalidPath (msg : String)
  | invalidVersion (msg : String)
  | valueError (msg : String)
deriving DecidableEq

/-- A parameter value after `Refreshable._parse_value`: `StringList` values
are split on commas, everything else stays a scalar string. -/
inductive PValue where
  | str (s : String)
  | list (l : List String)
deriving DecidableEq

/-- An entry of the `items` dict built by the fetch helpers: the fields of the
response item that the cache later reads (`Value` parsed, `Version`). -/
structure Item where
  iValue : PValue
  iVersion : Nat
deriving DecidableEq

/-- A raw response item from the backend, before value parsing:
`Name`, `Type`, `Value`, `Version`. -/
structure RawItem where
  rName : String
  rType : String
  rValue : String
  rVersion : Nat
deriving DecidableEq

/-- Serialized filter record (`SSMFilter.to_dict`): `Values` is omitted when
the set is empty. -/
structure FilterRecord where
  key : String
  option : String
  values : Option (List String)
deriving DecidableEq

/-- The backend SSM client, as a pure model: `byName` answers
`get_parameters` (request name to returned item, unresolved names are those
absent from the store), `byPath` answers `get_parameters_by_path` with all
pages already merged. -/
structure Client where
  byName : List (String × RawItem)
  byPath : String → Bool → List FilterRecord → List RawItem

/-- Python dict lookup on an association list (insertion ordered). -/
def alookup {β : Type} (k : String) : List (String × β) → Option β
  | [] => none
  | (k2, v) :: rest => if k2 = k then some v else alookup k rest

/-- Python dict assignment `d[k] = v`: replace in place if the key exists,
else append (insertion order preserved). -/
def alistInsert {β : Type} (k : String) (v : β) : List (String × β) → List (String × β)
  | [] => [(k, v)]
  | (k2, v2) :: rest =>
    if k2 = k then (k, v) :: rest else (k2, v2) :: alistInsert k v rest

/-- Python `str.split(sep)` on the character list of a string:
split at every separator, keeping empty fragments. -/
def splitOnCharList (sep : Char) : List Char → List (List Char)
  | [] => [[]]
  | ch :: rest =>
    if ch = sep then [] :: splitOnCharList sep rest
    else
      match splitOnCharList sep rest with
      | [] => [[ch]]
      | cur :: parts => (ch :: cur) :: parts

/-- Python `s.split(sep)` for a one-character separator. -/
def pySplit (s : String) (sep : Char) : List String :=
  (splitOnCharList sep s.data).map List.asString

/-- Python `str.isdigit()` (restricted to ASCII digits, which is all the
library ever feeds it): nonempty and all digits. -/
def pyIsDigit (s : String) : Bool :=
  !s.data.isEmpty && s.data.all Char.isDigit

/-- Value of `int(s)` for a string of ASCII digits. -/
def digitsToNat (l : List Char) : Nat :=
  l.foldl (fun acc ch => acc * 10 + (ch.toNat - '0'.toNat)) 0

/-- Python `str.startswith`. -/
def pyStartswith (s pre : String) : Bool :=
  List.isPrefixOf pre.data s.data

/-- Recursion worker for `batchChunks`; the fuel argument (instantiated with
the list length, enough for any positive chunk size) only makes the slicing
loop structurally recursive. -/
def batchChunksAux {α : Type} (num : Nat) : Nat → List α → List (List α)
  | _, [] => []
  | 0, _ :: _ => []
  | fuel + 1, x :: xs => (x :: xs).take num :: batchChunksAux num fuel (xs.drop (num - 1))

/-- `_batch(iterable, num)` from cache.py: slices of size `num` (the last one
may be shorter). Only ever called with `num = 10`; `num = 0`, on which Python
would raise from `range`, is never reached. -/
def batchChunks {α : Type} (num : Nat) (l : List α) : List (List α) :=
  batchChunksAux num l.length l

/-! ## Refreshable (staleness tracking and batched fetches) -/

/-- `Refreshable.__init__`: `self._max_age_delta = timedelta(seconds=max_age or 0)`. -/
def Refreshable.max_age_delta (max_age : Option Nat) : Nat :=
  max_age.getD 0

/-- `Refreshable._should_refresh`: never refresh when `max_age` is falsy
(`None` or `0`); always refresh when never fetched; otherwise refresh once
`max_age` seconds have expired. -/
def Refreshable.should_refresh (max_age last_refresh_time : Option Nat) (now : Nat) : Bool :=
  if Refreshable.max_age_delta max_age = 0 then false
  else if last_refresh_time.isNone then true
  else decide (last_refresh_time.getD 0 + Refreshable.max_age_delta max_age < now)

/-- `Refreshable._update_refresh_time(keep_oldest_value)`: overwrite with
`now`, or keep the oldest available reference when asked and one exists. -/
def Refreshable.update_refresh_time (keep_oldest_value : Bool) (now : Nat)
    (last_refresh_time : Option Nat) : Option Nat :=
  if keep_oldest_value ∧ last_refresh_time.isSome then
    some (min now (last_refresh_time.getD 0))
  else some now

/-- `Refreshable._parse_value`: `StringList` payloads split on `,`. -/
def Refreshable.parse_value (param_value : String) (param_type : String) : PValue :=
  if param_type = "StringList" then PValue.list (pySplit param_value ',')
  else PValue.str param_value

/-- One `client.get_parameters(Names=batch, WithDecryption=...)` call:
resolved items in request order, plus the `InvalidParameters` list (the
requested names the store cannot resolve). -/
def clientGetParameters (c : Client) (names : List String) (with_decryption : Bool) :
    List RawItem × List String :=
  (names.filterMap (fun n => alookup n c.byName),
   names.filter (fun n => (alookup n c.byName).isNone))

/-- Result of `Refreshable._get_parameters`: the `items` dict (keyed by the
response `Name`, values parsed), the accumulated invalid names, and the trace
of backend calls issued (the `Names` list of each `get_parameters` call). -/
structure FetchOut where
  items : List (String × Item)
  invalid : List String
  calls : List (List String)
deriving DecidableEq

/-- `Refreshable._get_parameters(names, with_decryption)`: fetch in batches of
10, merge the items dicts, extend the invalid-name list. -/
def Refreshable.get_parameters (c : Client) (names : List String)
    (with_decryption : Bool) : FetchOut :=
  (batchChunks 10 names).foldl
    (fun acc name_batch =>
      let response := clientGetParameters c name_batch with_decryption
      { items := response.1.foldl
          (fun m item => alistInsert item.rName
            { iValue := Refreshable.parse_value item.rValue item.rType,
              iVersion := item.rVersion } m) acc.items,
        invalid := acc.invalid ++ response.2,
        calls := acc.calls ++ [name_batch] })
    { items := [], invalid := [], calls := [] }

/-- `Refreshable._get_parameters_by_path`: one path query (pagination already
merged inside the client model), items keyed by response `Name`, values
parsed. -/
def Refreshable.get_parameters_by_path (c : Client) (with_decryption : Bool)
    (path : String) (recursive : Bool) (filters : List FilterRecord) :
    List (String × Item) :=
  (c.byPath path recursive filters).foldl
    (fun m item => alistInsert item.rName
      { iValue := Refreshable.parse_value item.rValue item.rType,
        iVersion := item.rVersion } m) []

/-! ## Filters (ssm_cache/filters.py) -/

/-- State of an `SSMFilter`: `_key`, `_option` and the `_values` set
(modelled as an insertion-ordered duplicate-free list). -/
structure SSMFilterState where
  key : String
  option : String
  values : List String
deriving DecidableEq

/-- Python `set.add`. -/
def setInsert (v : String) (l : List String) : List String :=
  if v ∈ l then l else l ++ [v]

/-- `SSMFilter._validate_config` followed by construction. -/
def SSMFilter.create (key : String) (opt : String) : Except CacheError SSMFilterState :=
  if key ∉ ["Name", "Type", "KeyId", "Path"] then
    Except.error (CacheError.valueError ("Invalid key value: " ++ key))
  else if key ≠ "Path" ∧ opt ∉ ["Equals", "BeginsWith"] then
    Except.error (CacheError.valueError ("Invalid option value: " ++ opt))
  else if key = "Path" ∧ opt ∉ ["Recursive", "OneLevel"] then
    Except.error (CacheError.valueError ("Invalid option value for Path key: " ++ opt))
  else Except.ok { key := key, option := opt, values := [] }

/-- `SSMFilter.value(value)`: refuse the insertion when 50 values are already
present (the filter is returned unchanged), otherwise add to the set.
(The Python message contains a contracted "can not"; the model spells the
word out.) -/
def SSMFilter.addValue (f : SSMFilterState) (v : String) :
    SSMFilterState × Option CacheError :=
  if f.values.length = 50 then
    (f, some (CacheError.valueError "You cannot set more than 50 values for each filter."))
  else ({ f with values := setInsert v f.values }, none)

/-- `SSMFilter.values(values)`: add one by one; a failure aborts the loop
(in Python the exception propagates) with the earlier insertions kept. -/
def SSMFilter.addValues (f : SSMFilterState) : List String → SSMFilterState × Option CacheError
  | [] => (f, none)
  | v :: vs =>
    match SSMFilter.addValue f v with
    | (f2, none) => SSMFilter.addValues f2 vs
    | (f2, some e) => (f2, some e)

/-- `SSMFilter.to_dict`: serialized record, `Values` omitted when empty. -/
def SSMFilter.to_dict (f : SSMFilterState) : FilterRecord :=
  { key := f.key, option := f.option,
    values := if f.values.isEmpty then none else some f.values }

/-! ## SSMParameter (individual entry) -/

/-- State of an `SSMParameter`: parsed `_name`, `_version`,
`_is_pinned_version`, cached `_value`, own staleness fields, decryption flag.
`oid` models Python object identity (a fresh allocation number per
construction). Group membership (`_group`) is modelled positionally: the
operations below take the owning group, when any, as an explicit argument. -/
structure SSMParameterState where
  oid : Nat
  name : String
  version : Option Nat
  is_pinned_version : Bool
  pvalue : Option PValue
  max_age : Option Nat
  last_refresh_time : Option Nat
  with_decryption : Bool
deriving DecidableEq

/-- `SSMParameter._parse_version`: split an optional `:version` suffix.
A suffix must be a positive integer, else `InvalidVersionError`; more than
one `:` makes the two-name unpacking raise a plain `ValueError`. -/
def SSMParameter.parse_version (param_name : String) :
    Except CacheError (String × Option Nat × Bool) :=
  match pySplit param_name ':' with
  | [_] => Except.ok (param_name, none, false)
  | [name, version] =>
    if pyIsDigit version ∧ 0 < digitsToNat version.data then
      Except.ok (name, some (digitsToNat version.data), true)
    else Except.error (CacheError.invalidVersion ("Invalid version: " ++ version))
  | _ => Except.error (CacheError.valueError "too many values to unpack (expected 2)")

/-- `SSMParameter.__init__(param_name, max_age, with_decryption)`: reject an
empty name, parse the version suffix, start with no cached value. -/
def SSMParameter.create (param_name : String) (max_age : Option Nat)
    (with_decryption : Bool) (oid : Nat) : Except CacheError SSMParameterState :=
  if param_name = "" then Except.error (CacheError.valueError "Must specify name")
  else
    match SSMParameter.parse_version param_name with
    | Except.error e => Except.error e
    | Except.ok (name, version, is_pinned) =>
      Except.ok { oid := oid, name := name, version := version,
                  is_pinned_version := is_pinned, pvalue := none,
                  max_age := max_age, last_refresh_time := none,
                  with_decryption := with_decryption }

/-- `SSMParameter.full_name`: `name:version` when a truthy version is pinned,
else the bare name. This is the literal key sent to the backend. -/
def SSMParameterState.full_name (p : SSMParameterState) : String :=
  if p.version.getD 0 ≠ 0 ∧ p.is_pinned_version then
    p.name ++ ":" ++ toString (p.version.getD 0)
  else p.name

/-! ## SSMParameterGroup -/

/-- State of an `SSMParameterGroup`: shared staleness fields, decryption flag,
`_base_path`, the `_parameters` dict (registered key to entry), and the
allocation counter backing entry object identities. -/
structure SSMParameterGroupState where
  max_age : Option Nat
  last_refresh_time : Option Nat
  with_decryption : Bool
  base_path : String
  params : List (String × SSMParameterState)
  next_oid : Nat
deriving DecidableEq

/-- `SSMParameterGroup._validate_path`: a nonempty path must start with a
slash. -/
def SSMParameterGroup.validate_path (path : String) : Except CacheError Unit :=
  if path ≠ "" ∧ ¬ pyStartswith path "/" then
    Except.error (CacheError.invalidPath
      ("Invalid path: " ++ path ++ " (should start with a slash)"))
  else Except.ok ()

/-- `SSMParameterGroup.__init__(max_age, with_decryption, base_path)`;
`base_path or ""` is the identity on the string model. -/
def SSMParameterGroup.create (max_age : Option Nat) (with_decryption : Bool)
    (base_path : String) : Except CacheError SSMParameterGroupState :=
  match SSMParameterGroup.validate_path base_path with
  | Except.error e => Except.error e
  | Except.ok _ => Except.ok
    { max_age := max_age, last_refresh_time := none,
      with_decryption := with_decryption, base_path := base_path,
      params := [], next_oid := 0 }

/-- `SSMParameterGroup.parameter(path, add_prefix)`: return the registered
entry when the supplied `path` is already a key of `_parameters` (looked up
before any prefixing); otherwise validate and prefix the path when a base
path applies, construct a new `SSMParameter`, register it under the resolved
path and attach it to this group. -/
def SSMParameterGroup.parameter (g : SSMParameterGroupState) (path : String)
    (apply_base_path : Bool) :
    Except CacheError (SSMParameterState × SSMParameterGroupState) :=
  match alookup path g.params with
  | some p => Except.ok (p, g)
  | none =>
    match (if g.base_path ≠ "" ∧ apply_base_path then
             match SSMParameterGroup.validate_path path with
             | Except.error e => Except.error e
             | Except.ok _ => Except.ok (g.base_path ++ path)
           else Except.ok path : Except CacheError String) with
    | Except.error e => Except.error e
    | Except.ok path2 =>
      match SSMParameter.create path2 none true g.next_oid with
      | Except.error e => Except.error e
      | Except.ok p =>
        Except.ok (p, { g with params := alistInsert path2 p g.params,
                               next_oid := g.next_oid + 1 })

/-- `SSMParameterGroup.get_loaded_parameters`: the values of the
`_parameters` dict, in insertion order. -/
def SSMParameterGroup.get_loaded_parameters (g : SSMParameterGroupState) :
    List SSMParameterState :=
  g.params.map Prod.snd

/-- The per-entry update loop at the end of `SSMParameterGroup._refresh`:
each registered entry takes the value and version fetched under its bare
name; a missing name raises, keeping the updates already made (Python
mutates the shared objects in place before raising). -/
def SSMParameterGroup.refreshLoop (items : List (String × Item)) :
    List (String × SSMParameterState) →
    List (String × SSMParameterState) × Option CacheError
  | [] => ([], none)
  | (k, p) :: rest =>
    match alookup p.name items with
    | none => ((k, p) :: rest, some (CacheError.invalidParameter p.name))
    | some it =>
      let p2 := { p with pvalue := some it.iValue, version := some it.iVersion }
      let r := SSMParameterGroup.refreshLoop items rest
      ((k, p2) :: r.1, r.2)

/-- `SSMParameterGroup._refresh`: one batched fetch of every registered
full name of each entry; any backend-reported invalid name fails the whole
refresh with the comma-joined list before touching any entry; otherwise
the value and version of every entry are updated. Returns the group state, the
raised error if any, and the backend call trace. -/
def SSMParameterGroup.refreshInner (c : Client) (g : SSMParameterGroupState) :
    SSMParameterGroupState × Option CacheError × List (List String) :=
  let names := (SSMParameterGroup.get_loaded_parameters g).map SSMParameterState.full_name
  let out := Refreshable.get_parameters c names g.with_decryption
  if out.invalid ≠ [] then
    (g, some (CacheError.invalidParameter (String.intercalate "," out.invalid)), out.calls)
  else
    let r := SSMParameterGroup.refreshLoop out.items g.params
    ({ g with params := r.1 }, r.2, out.calls)

/-- `Refreshable.refresh` as inherited by the group: `_refresh()` then
`_update_refresh_time()` (overwrite semantics); a raise skips the time
update. -/
def SSMParameterGroup.refresh (c : Client) (now : Nat) (g : SSMParameterGroupState) :
    SSMParameterGroupState × Option CacheError × List (List String) :=
  let r := SSMParameterGroup.refreshInner c g
  match r.2.1 with
  | some e => (r.1, some e, r.2.2)
  | none =>
    ({ r.1 with last_refresh_time :=
        Refreshable.update_refresh_time false now r.1.last_refresh_time },
     none, r.2.2)

/-- The creation loop of `SSMParameterGroup.parameters`: for every discovered
name (already absolute, so `add_prefix=False`), create or reuse the entry,
set its value and version directly, and collect it. An error from entry
creation aborts the loop (Python lets it propagate). -/
def SSMParameterGroup.parametersLoop :
    List (String × Item) → SSMParameterGroupState →
    SSMParameterGroupState × Option CacheError × List SSMParameterState
  | [], g => (g, none, [])
  | (name, it) :: rest, g =>
    match SSMParameterGroup.parameter g name false with
    | Except.error e => (g, some e, [])
    | Except.ok (p, g1) =>
      let p2 := { p with pvalue := some it.iValue, version := some it.iVersion }
      let g2 := { g1 with params := alistInsert name p2 g1.params }
      let r := SSMParameterGroup.parametersLoop rest g2
      (r.1, r.2.1, p2 :: r.2.2)

/-- Result of `SSMParameterGroup.parameters`. -/
structure ParamsOut where
  group : SSMParameterGroupState
  error : Option CacheError
  created : List SSMParameterState
deriving DecidableEq

/-- `SSMParameterGroup.parameters(path, recursive, filters)`: validate the
path, prefix it with the base path when one is set, run one path query,
coalesce the refresh timestamp toward the oldest reference
(`keep_oldest_value=True`), then create or reuse one entry per discovered
item and set its value and version. -/
def SSMParameterGroup.parameters (c : Client) (now : Nat)
    (g : SSMParameterGroupState) (path : String) (recursive : Bool)
    (filters : List SSMFilterState) : ParamsOut :=
  match SSMParameterGroup.validate_path path with
  | Except.error e => { group := g, error := some e, created := [] }
  | Except.ok _ =>
    let path2 := if g.base_path ≠ "" then g.base_path ++ path else path
    let items := Refreshable.get_parameters_by_path c g.with_decryption path2
      recursive (filters.map SSMFilter.to_dict)
    let g2 := { g with last_refresh_time :=
      Refreshable.update_refresh_time true now g.last_refresh_time }
    let r := SSMParameterGroup.parametersLoop items g2
    { group := r.1, error := r.2.1, created := r.2.2 }

/-- `len(group)`. -/
def SSMParameterGroupState.size (g : SSMParameterGroupState) : Nat :=
  g.params.length

/-- `SSMParameterGroup._should_refresh` is the inherited one. -/
def SSMParameterGroupState.should_refresh (g : SSMParameterGroupState) (now : Nat) : Bool :=
  Refreshable.should_refresh g.max_age g.last_refresh_time now

/-- `SSMParameter._should_refresh`: delegate to the owning group when there is
one. -/
def SSMParameterState.should_refresh (p : SSMParameterState)
    (grp : Option SSMParameterGroupState) (now : Nat) : Bool :=
  match grp with
  | some g => SSMParameterGroupState.should_refresh g now
  | none => Refreshable.should_refresh p.max_age p.last_refresh_time now

/-! ## SSMParameter refresh -/

/-- Result of an `SSMParameter` refresh: the entry, the owning group state
when grouped, the raised error if any, and the backend call trace. -/
structure ParamRefreshOut where
  param : SSMParameterState
  group : Option SSMParameterGroupState
  error : Option CacheError
  calls : List (List String)
deriving DecidableEq

/-- The tail of `SSMParameter._refresh`: the single-name fetch of
`self.full_name` and the update of the cached value and version.
Python raises `InvalidParameterError("%s is invalid. %s - %s" % ...)` when
the name is reported invalid or absent from the response; the model keeps
the leading `name is invalid.` part of that message. -/
def SSMParameter.refreshFetchSelf (c : Client) (p : SSMParameterState)
    (grp : Option SSMParameterGroupState) (calls0 : List (List String)) :
    ParamRefreshOut :=
  let out := Refreshable.get_parameters c [SSMParameterState.full_name p] p.with_decryption
  match alookup p.name out.items, out.invalid with
  | some it, [] =>
    { param := { p with pvalue := some it.iValue, version := some it.iVersion },
      group := grp, error := none, calls := calls0 ++ out.calls }
  | _, _ =>
    { param := p, group := grp,
      error := some (CacheError.invalidParameter (p.name ++ " is invalid.")),
      calls := calls0 ++ out.calls }

/-- `SSMParameter._refresh`: when grouped, run the `refresh()` of the group — and
then, because the source does not return there, fall through to the
single-name fetch of this entry as well; a standalone entry goes straight to
the single-name fetch. (In Python the group refresh already mutated this
shared object; the model applies the single fetch on top, which in the
success path writes the same data.) -/
def SSMParameter.refreshInner (c : Client) (now : Nat) (p : SSMParameterState)
    (grp : Option SSMParameterGroupState) : ParamRefreshOut :=
  match grp with
  | some g =>
    let r := SSMParameterGroup.refresh c now g
    match r.2.1 with
    | some e => { param := p, group := some r.1, error := some e, calls := r.2.2 }
    | none => SSMParameter.refreshFetchSelf c p (some r.1) r.2.2
  | none => SSMParameter.refreshFetchSelf c p none []

/-- `Refreshable.refresh` as inherited by the entry: `_refresh()` then
`_update_refresh_time()` on the entry itself. -/
def SSMParameter.refresh (c : Client) (now : Nat) (p : SSMParameterState)
    (grp : Option SSMParameterGroupState) : ParamRefreshOut :=
  let r := SSMParameter.refreshInner c now p grp
  match r.error with
  | some _ => r
  | none =>
    { r with param := { r.param with last_refresh_time :=
        Refreshable.update_refresh_time false now r.param.last_refresh_time } }

/-! ## Error-triggered refresh wrapper -/

/-- Decidable equality on `Except`, needed to evaluate outcomes on concrete
inputs. -/
instance exceptDecidableEq {ε α : Type} [DecidableEq ε] [DecidableEq α] :
    DecidableEq (Except ε α) := fun a b =>
  match a, b with
  | Except.error e1, Except.error e2 =>
    if h : e1 = e2 then Decidable.isTrue (congrArg Except.error h)
    else Decidable.isFalse (fun he => h (Except.error.inj he))
  | Except.ok x, Except.ok y =>
    if h : x = y then Decidable.isTrue (congrArg Except.ok h)
    else Decidable.isFalse (fun he => h (Except.ok.inj he))
  | Except.error _, Except.ok _ => Decidable.isFalse (fun he => Except.noConfusion he)
  | Except.ok _, Except.error _ => Decidable.isFalse (fun he => Except.noConfusion he)

/-- Result of one invocation of a function wrapped by
`Refreshable.refresh_on_error`: the owner state afterwards, the final
outcome, how many times `refresh()` and the error callback ran, and the
retry-flag value passed at each invocation of the wrapped operation. -/
structure WrappedOut (σ ε α : Type) where
  owner : σ
  result : Except ε α
  refresh_count : Nat
  callback_count : Nat
  func_invocations : List Bool
deriving DecidableEq

/-- `Refreshable.refresh_on_error(error_class, error_callback,
retry_argument)` applied to `func`, then invoked once: run `func`; when it
raises an error of the designated class, refresh the owner, fire the callback
when one is supplied, set the retry keyword argument (when the retry-argument
name is truthy) and run `func` exactly once more, whose outcome — success or
error — is returned without further catching. The wrapped operation is
modelled as a function of the owner state and the injected retry flag; its
other arguments are fixed across both invocations and elided. -/
def Refreshable.refresh_on_error_invoke {σ ε α : Type}
    (refresh : σ → σ) (error_class : ε → Bool) (has_error_callback : Bool)
    (retry_argument : Bool) (func : σ → Bool → Except ε α) (s : σ) :
    WrappedOut σ ε α :=
  match func s false with
  | Except.ok a =>
    { owner := s, result := Except.ok a, refresh_count := 0,
      callback_count := 0, func_invocations := [false] }
  | Except.error e =>
    if error_class e then
      let s2 := refresh s
      let retry := if retry_argument then true else false
      { owner := s2, result := func s2 retry, refresh_count := 1,
        callback_count := if has_error_callback then 1 else 0,
        func_invocations := [false, retry] }
    else
      { owner := s, result := Except.error e, refresh_count := 0,
        callback_count := 0, func_invocations := [false] }


/-! ## Concrete scenario states used by the closed theorems -/

/-- A backend store resolving only the name `good`. -/
def clientGood : Client :=
  ⟨[("good", ⟨"good", "String", "v2", 4⟩)], fun _ _ _ => []⟩

/-- An entry named `good`, as registered by `group.parameter("good")`. -/
def entryGood : SSMParameterState :=
  ⟨0, "good", none, false, none, none, none, true⟩

/-- A group with the single registered entry `good`. -/
def groupGood : SSMParameterGroupState :=
  ⟨none, none, true, "", [("good", entryGood)], 1⟩

/-- An entry named `bad`, which the backend cannot resolve. -/
def entryBad : SSMParameterState :=
  ⟨1, "bad", none, false, none, none, none, true⟩

/-- A group holding `good` (with a previously cached value and version) and
`bad`, refreshed at time 5. -/
def groupGoodBad : SSMParameterGroupState :=
  ⟨none, some 5, true, "",
   [("good", { entryGood with pvalue := some (PValue.str "abc123"), version := some 3 }),
    ("bad", entryBad)], 2⟩

/-- A group with base path `/Root` and nothing registered. -/
def groupRootEmpty : SSMParameterGroupState :=
  ⟨none, none, true, "/Root", [], 0⟩

/-- The entry created by the first `parameter("/x")` call on `groupRootEmpty`. -/
def entryRootX0 : SSMParameterState :=
  ⟨0, "/Root/x", none, false, none, none, none, true⟩

/-- `groupRootEmpty` after the first `parameter("/x")` call. -/
def groupRootOne : SSMParameterGroupState :=
  ⟨none, none, true, "/Root", [("/Root/x", entryRootX0)], 1⟩

/-- The fresh entry created by the second `parameter("/x")` call. -/
def entryRootX1 : SSMParameterState :=
  ⟨1, "/Root/x", none, false, none, none, none, true⟩

/-- `groupRootOne` after the second `parameter("/x")` call: the fresh entry
replaced the first one under the same key. -/
def groupRootTwo : SSMParameterGroupState :=
  ⟨none, none, true, "/Root", [("/Root/x", entryRootX1)], 2⟩

/-- A group with no base path and nothing registered. -/
def groupPlainEmpty : SSMParameterGroupState :=
  ⟨none, none, true, "", [], 0⟩

/-- The entry created by `parameter("x")` on `groupPlainEmpty`. -/
def entryPlainX : SSMParameterState :=
  ⟨0, "x", none, false, none, none, none, true⟩

/-- `groupPlainEmpty` after `parameter("x")`. -/
def groupPlainX : SSMParameterGroupState :=
  ⟨none, none, true, "", [("x", entryPlainX)], 1⟩

/-- A backend path store: every path query returns the single item `/a/x`. -/
def clientPathA : Client :=
  ⟨[], fun _ _ _ => [⟨"/a/x", "String", "v", 1⟩]⟩

/-- A fresh group with `max_age=10` for the discovery scenario. -/
def groupDiscovery : SSMParameterGroupState :=
  ⟨some 10, none, true, "", [], 0⟩

/-- A filter already holding 50 values. -/
def filterFull : SSMFilterState :=
  ⟨"KeyId", "Equals", (List.range 50).map (fun n => toString n)⟩

/-! ## Association-list lemmas -/

theorem alookup_alistInsert_self {β : Type} (k : String) (v : β)
    (l : List (String × β)) : alookup k (alistInsert k v l) = some v := by
  induction l with
  | nil => simp [alistInsert, alookup]
  | cons hd tl ih =>
    obtain ⟨k2, v2⟩ := hd
    by_cases h : k2 = k
    · simp [alistInsert, h, alookup]
    · simp [alistInsert, h, alookup, ih]

theorem alookup_alistInsert_ne {β : Type} (k k2 : String) (v : β)
    (l : List (String × β)) (h : k2 ≠ k) :
    alookup k (alistInsert k2 v l) = alookup k l := by
  induction l with
  | nil => simp [alistInsert, alookup, h]
  | cons hd tl ih =>
    obtain ⟨k3, v3⟩ := hd
    by_cases h3 : k3 = k2
    · subst h3
      simp [alistInsert, alookup, h]
    · by_cases hk : k3 = k
      · subst hk
        simp [alistInsert, alookup, h3, Ne.symm h]
      · simp [alistInsert, h3, alookup, hk, ih]

theorem length_alistInsert_isSome {β : Type} (k : String) (v : β)
    (l : List (String × β)) (h : (alookup k l).isSome) :
    (alistInsert k v l).length = l.length := by
  induction l with
  | nil => simp [alookup] at h
  | cons hd tl ih =>
    obtain ⟨k2, v2⟩ := hd
    by_cases h2 : k2 = k
    · simp [alistInsert, h2]
    · simp only [alookup, h2, if_false] at h
      simp [alistInsert, h2, ih h]

/-! ## Split lemmas -/

theorem data_asString (l : List Char) : (List.asString l).data = l := rfl

theorem data_append (a b : String) : (a ++ b).data = a.data ++ b.data := rfl

theorem string_eq_empty_of_data (a : String) (h : a.data = []) : a = "" := by
  cases a with
  | mk l =>
    have h2 : l = [] := h
    subst h2
    rfl

theorem splitOnCharList_ne_nil (sep : Char) (l : List Char) :
    splitOnCharList sep l ≠ [] := by
  cases l with
  | nil => simp [splitOnCharList]
  | cons ch rest =>
    unfold splitOnCharList
    split
    · simp
    · split <;> simp

theorem splitOnCharList_of_not_mem (sep : Char) (l : List Char) (h : sep ∉ l) :
    splitOnCharList sep l = [l] := by
  induction l with
  | nil => rfl
  | cons ch rest ih =>
    have hch : ¬ ch = sep := fun he => h (by simp [he])
    have hrest : sep ∉ rest := fun hm => h (by simp [hm])
    unfold splitOnCharList
    rw [if_neg hch, ih hrest]

theorem splitOnCharList_append (sep : Char) (l1 l2 : List Char) (h : sep ∉ l1) :
    splitOnCharList sep (l1 ++ sep :: l2) = l1 :: splitOnCharList sep l2 := by
  induction l1 with
  | nil => simp [splitOnCharList]
  | cons ch rest ih =>
    have hch : ¬ ch = sep := fun he => h (by simp [he])
    have hrest : sep ∉ rest := fun hm => h (by simp [hm])
    simp only [List.cons_append, splitOnCharList, List.append_eq]
    rw [if_neg hch, ih hrest]

theorem length_splitOnCharList (sep : Char) (l : List Char) :
    (splitOnCharList sep l).length = l.countP (fun ch => ch == sep) + 1 := by
  induction l with
  | nil => simp [splitOnCharList]
  | cons ch rest ih =>
    unfold splitOnCharList
    by_cases h : ch = sep
    · rw [if_pos h]
      simp [List.countP_cons, h, ih]
    · rw [if_neg h]
      cases hsr : splitOnCharList sep rest with
      | nil => exact absurd hsr (splitOnCharList_ne_nil sep rest)
      | cons cur parts =>
        rw [hsr] at ih
        simp only [List.length_cons] at ih
        have hcp : (fun c => c == sep) ch = false := by simp [h]
        simp [List.countP_cons, hcp]
        omega

theorem pySplit_asString_append (base suffix : List Char)
    (hb : ':' ∉ base) (hs : ':' ∉ suffix) :
    pySplit (List.asString (base ++ ':' :: suffix)) ':' =
      [List.asString base, List.asString suffix] := by
  unfold pySplit
  rw [data_asString, splitOnCharList_append ':' base suffix hb,
      splitOnCharList_of_not_mem ':' suffix hs]
  rfl

/-! ## Group-operation lemmas -/

theorem parameter_preserves_fields (g : SSMParameterGroupState) (path : String)
    (apply_base_path : Bool) (p : SSMParameterState) (g2 : SSMParameterGroupState)
    (h : SSMParameterGroup.parameter g path apply_base_path = Except.ok (p, g2)) :
    g2.last_refresh_time = g.last_refresh_time ∧ g2.base_path = g.base_path ∧
    g2.max_age = g.max_age ∧ g2.with_decryption = g.with_decryption := by
  unfold SSMParameterGroup.parameter at h
  split at h
  · simp only [Except.ok.injEq, Prod.mk.injEq] at h
    rw [← h.2]
    exact ⟨rfl, rfl, rfl, rfl⟩
  · split at h
    · exact absurd h (by simp)
    · split at h
      · exact absurd h (by simp)
      · simp only [Except.ok.injEq, Prod.mk.injEq] at h
        rw [← h.2]
        exact ⟨rfl, rfl, rfl, rfl⟩

theorem parametersLoop_preserves_time (items : List (String × Item))
    (g : SSMParameterGroupState) :
    (SSMParameterGroup.parametersLoop items g).1.last_refresh_time =
      g.last_refresh_time := by
  induction items generalizing g with
  | nil => rfl
  | cons hd tl ih =>
    obtain ⟨name, it⟩ := hd
    unfold SSMParameterGroup.parametersLoop
    cases hp : SSMParameterGroup.parameter g name false with
    | error e => rfl
    | ok pr =>
      obtain ⟨p, g1⟩ := pr
      have hf := parameter_preserves_fields g name false p g1 hp
      simp only []
      rw [ih]
      exact hf.1

theorem parameters_updates_time (c : Client) (now : Nat)
    (g : SSMParameterGroupState) (path : String) (recursive : Bool)
    (filters : List SSMFilterState)
    (h : (SSMParameterGroup.parameters c now g path recursive filters).error = none) :
    (SSMParameterGroup.parameters c now g path recursive filters).group.last_refresh_time =
      Refreshable.update_refresh_time true now g.last_refresh_time := by
  unfold SSMParameterGroup.parameters at h ⊢
  cases hv : SSMParameterGroup.validate_path path with
  | error e =>
    rw [hv] at h
    simp at h
  | ok u =>
    simp only []
    rw [parametersLoop_preserves_time]

/-! ## Filter lemmas -/

theorem setInsert_length_le (v : String) (l : List String) :
    (setInsert v l).length ≤ l.length + 1 := by
  unfold setInsert
  split
  · omega
  · simp

theorem addValue_keeps_bound (f : SSMFilterState) (v : String)
    (hf : f.values.length ≤ 50) :
    (SSMFilter.addValue f v).1.values.length ≤ 50 := by
  unfold SSMFilter.addValue
  by_cases h50 : f.values.length = 50
  · rw [if_pos h50]
    exact hf
  · rw [if_neg h50]
    have := setInsert_length_le v f.values
    simp only []
    omega

theorem addValues_keeps_bound (vs : List String) (f : SSMFilterState)
    (hf : f.values.length ≤ 50) :
    (SSMFilter.addValues f vs).1.values.length ≤ 50 := by
  induction vs generalizing f with
  | nil => exact hf
  | cons v rest ih =>
    unfold SSMFilter.addValues
    cases hv : SSMFilter.addValue f v with
    | mk f2 e =>
      have hb : f2.values.length ≤ 50 := by
        have := addValue_keeps_bound f v hf
        rw [hv] at this
        exact this
      cases e with
      | none => exact ih f2 hb
      | some err => exact hb

/-! ## Claim theorems -/

/-- C1 (code bug in the source): the specification says a grouped entry
refresh delegates to the batched group refresh and does not additionally
issue a single-name backend fetch, but `SSMParameter._refresh` does not
return after `self._group.refresh()` and falls through to the single-name
fetch. On a group with the single registered entry `good`, the grouped
refresh issues the batched group call and then an extra single-name call
(trace `[["good"], ["good"]]`), while a standalone entry issues exactly one
single-name call, as the claim states. -/
theorem C1_grouped_refresh_extra_single_fetch :
    (SSMParameter.refresh clientGood 9 entryGood (some groupGood)).calls =
      [["good"], ["good"]] ∧
    (SSMParameter.refresh clientGood 9 entryGood (some groupGood)).error = none ∧
    (SSMParameter.refresh clientGood 9 entryGood none).calls = [["good"]] := by
  decide

/-- C2: when the batched fetch behind a group refresh reports at least one
unresolved name, `refresh()` fails with an `InvalidParameter` error whose
message is the comma-join of all unresolved names, and the group state —
every registered entry with its previously cached value and version,
resolved entries included, and the refresh timestamp — is returned exactly
as it was: the refresh is all-or-nothing per call. -/
theorem C2_group_refresh_all_or_nothing (c : Client) (g : SSMParameterGroupState)
    (now : Nat)
    (h : (Refreshable.get_parameters c
      ((SSMParameterGroup.get_loaded_parameters g).map SSMParameterState.full_name)
      g.with_decryption).invalid ≠ []) :
    SSMParameterGroup.refresh c now g =
      (g,
       some (CacheError.invalidParameter (String.intercalate ","
         (Refreshable.get_parameters c
           ((SSMParameterGroup.get_loaded_parameters g).map SSMParameterState.full_name)
           g.with_decryption).invalid)),
       (Refreshable.get_parameters c
         ((SSMParameterGroup.get_loaded_parameters g).map SSMParameterState.full_name)
         g.with_decryption).calls) := by
  simp only [SSMParameterGroup.refresh, SSMParameterGroup.refreshInner]
  rw [if_pos h]

/-- C2 witness: with `good` resolved (and previously cached) and `bad`
unresolved, the batch `["good", "bad"]` fails with `InvalidParameter "bad"`
and the group is unchanged. -/
theorem C2_witness :
    (Refreshable.get_parameters clientGood
      ((SSMParameterGroup.get_loaded_parameters groupGoodBad).map SSMParameterState.full_name)
      groupGoodBad.with_decryption).invalid ≠ [] ∧
    SSMParameterGroup.refresh clientGood 9 groupGoodBad =
      (groupGoodBad, some (CacheError.invalidParameter "bad"), [["good", "bad"]]) := by
  refine ⟨by decide, ?_⟩
  exact (C2_group_refresh_all_or_nothing clientGood groupGoodBad 9 (by decide)).trans
    (by decide)

/-- C4 counterexample: with `maxAge` present but equal to 0 and no prior
fetch, the claim as stated demands `shouldRefresh() = true`, but the code
treats a falsy `max_age` like an absent one and returns false. -/
theorem C4_counterexample :
    Refreshable.should_refresh (some 0) none 1000000 = false := by decide

/-- C4 (amended): `shouldRefresh()` is false whenever `maxAge` is absent or
zero; true whenever `maxAge` is present and positive and `lastRefreshTime`
is absent; and otherwise true exactly when the current time exceeds
`lastRefreshTime + maxAge`. -/
theorem C4_should_refresh_cases (max_age last : Option Nat) (now : Nat) :
    (max_age.getD 0 = 0 → Refreshable.should_refresh max_age last now = false) ∧
    (max_age.getD 0 ≠ 0 → last = none →
      Refreshable.should_refresh max_age last now = true) ∧
    (∀ m t, max_age = some m → m ≠ 0 → last = some t →
      (Refreshable.should_refresh max_age last now = true ↔ t + m < now)) := by
  unfold Refreshable.should_refresh Refreshable.max_age_delta
  refine ⟨?_, ?_, ?_⟩
  · intro hz
    rw [if_pos hz]
  · intro hz hl
    subst hl
    rw [if_neg hz]
    simp
  · intro m t hm hmne hl
    subst hm
    subst hl
    simp [hmne]

/-- C4 witness: a positive max age of 5 forces a refresh when never fetched,
and with a last refresh at 10 the entry is stale at 16 since 10 + 5 < 16. -/
theorem C4_witness :
    Refreshable.should_refresh (some 5) none 0 = true ∧
    (Refreshable.should_refresh (some 5) (some 10) 16 = true ↔ 10 + 5 < 16) := by
  constructor
  · exact (C4_should_refresh_cases (some 5) none 0).2.1 (by decide) rfl
  · exact (C4_should_refresh_cases (some 5) (some 10) 16).2.2 5 10 rfl (by decide) rfl

/-- C9: an entry or group constructed with `max_age = 0` behaves exactly as
if no max age were configured: `shouldRefresh()` is always false, whatever
the elapsed time and whether a fetch ever happened, for the shared tracker,
for an ungrouped entry, and for a group. -/
theorem C9_zero_max_age_like_absent (last : Option Nat) (now : Nat)
    (p : SSMParameterState) (g : SSMParameterGroupState) :
    Refreshable.should_refresh (some 0) last now = false ∧
    Refreshable.should_refresh (some 0) last now =
      Refreshable.should_refresh none last now ∧
    SSMParameterState.should_refresh { p with max_age := some 0 } none now = false ∧
    SSMParameterGroupState.should_refresh { g with max_age := some 0 } now = false := by
  refine ⟨rfl, rfl, rfl, rfl⟩

/-- C3: a successful path-discovery call records the refresh timestamp with
oldest-timestamp coalescing — `min(now, existing lastRefreshTime)` — so
after two successful `parameters` calls at times `t1 < t2` on a group that
starts with no reference (and no intervening full refresh), the group
timestamp equals `t1`: staleness is judged from the oldest reference. -/
theorem C3_discovery_coalesces_oldest (c : Client) (g : SSMParameterGroupState)
    (path1 path2 : String) (rec1 rec2 : Bool)
    (fs1 fs2 : List SSMFilterState) (t1 t2 : Nat)
    (h12 : t1 < t2) (h0 : g.last_refresh_time = none)
    (h1 : (SSMParameterGroup.parameters c t1 g path1 rec1 fs1).error = none)
    (h2 : (SSMParameterGroup.parameters c t2
      (SSMParameterGroup.parameters c t1 g path1 rec1 fs1).group
      path2 rec2 fs2).error = none) :
    (SSMParameterGroup.parameters c t1 g path1 rec1 fs1).group.last_refresh_time =
      some t1 ∧
    (SSMParameterGroup.parameters c t2
      (SSMParameterGroup.parameters c t1 g path1 rec1 fs1).group
      path2 rec2 fs2).group.last_refresh_time = some t1 := by
  have e1 := parameters_updates_time c t1 g path1 rec1 fs1 h1
  rw [h0] at e1
  have e1f : (SSMParameterGroup.parameters c t1 g path1 rec1 fs1).group.last_refresh_time =
      some t1 := by
    rw [e1]
    unfold Refreshable.update_refresh_time
    simp
  refine ⟨e1f, ?_⟩
  have e2 := parameters_updates_time c t2
    (SSMParameterGroup.parameters c t1 g path1 rec1 fs1).group path2 rec2 fs2 h2
  rw [e1f] at e2
  rw [e2]
  unfold Refreshable.update_refresh_time
  simp [min_eq_right (Nat.le_of_lt h12)]

/-- C3 witness: two successful discovery calls at times 3 and 7 on a fresh
group with `max_age = 10` leave the coalesced timestamp at 3. -/
theorem C3_witness :
    (SSMParameterGroup.parameters clientPathA 3 groupDiscovery "/a" true
      []).group.last_refresh_time = some 3 ∧
    (SSMParameterGroup.parameters clientPathA 7
      (SSMParameterGroup.parameters clientPathA 3 groupDiscovery "/a" true []).group
      "/b" true []).group.last_refresh_time = some 3 :=
  C3_discovery_coalesces_oldest clientPathA groupDiscovery "/a" "/b" true true [] []
    3 7 (by decide) rfl (by decide) (by decide)

theorem append_ne_self_of_ne_empty (a b : String) (h : a ≠ "") : a ++ b ≠ b := by
  intro he
  apply h
  apply string_eq_empty_of_data
  have hd : a.data ++ b.data = b.data := by
    rw [← data_append, he]
  have hl := congrArg List.length hd
  rw [List.length_append] at hl
  have hz : a.data.length = 0 := by omega
  exact List.length_eq_zero.mp hz

/-- C5 counterexample: with base path `/Root` configured, registering `/x`
twice is not idempotent in the object sense. The existing-entry lookup keys
on the supplied name before prefixing, so it misses (the entry is stored
under the prefixed key `/Root/x`) and the second call returns a freshly
constructed entry — a different object identity — that replaces the first;
only the group size stays 1. The claim asserts the identical object is
returned because the lookup keys on the name after prefixing. -/
theorem C5_counterexample :
    SSMParameterGroup.parameter groupRootEmpty "/x" true =
      Except.ok (entryRootX0, groupRootOne) ∧
    SSMParameterGroup.parameter groupRootOne "/x" true =
      Except.ok (entryRootX1, groupRootTwo) ∧
    entryRootX1 ≠ entryRootX0 ∧ groupRootTwo.size = 1 := by decide

/-- C5 (amended): the duplicate lookup in `parameter` keys on the supplied
name before base-path prefixing. When no base path applies, registering the
same name twice is idempotent: the second call returns the identical entry
object and the unchanged group. With a base path, the second call constructs
a fresh entry that replaces the registered one under the prefixed key; in
every case the group size does not grow on re-registration. -/
theorem C5_registration_semantics (g : SSMParameterGroupState) (path : String)
    (p1 : SSMParameterState) (g1 : SSMParameterGroupState)
    (h1 : SSMParameterGroup.parameter g path true = Except.ok (p1, g1)) :
    (g.base_path = "" →
      SSMParameterGroup.parameter g1 path true = Except.ok (p1, g1)) ∧
    (∀ p2 g2, SSMParameterGroup.parameter g1 path true = Except.ok (p2, g2) →
      g2.size = g1.size) := by
  unfold SSMParameterGroup.parameter at h1
  cases halk : alookup path g.params with
  | some q =>
    simp only [halk] at h1
    simp only [Except.ok.injEq, Prod.mk.injEq] at h1
    obtain ⟨hq, hg⟩ := h1
    subst hq
    subst hg
    constructor
    · intro hbp
      unfold SSMParameterGroup.parameter
      simp only [halk]
    · intro p2 g2 h2
      unfold SSMParameterGroup.parameter at h2
      simp only [halk, Except.ok.injEq, Prod.mk.injEq] at h2
      rw [← h2.2]
  | none =>
    simp only [halk] at h1
    by_cases hb : g.base_path = ""
    · have hcond : ¬ (g.base_path ≠ "" ∧ True) := fun hc => hc.1 hb
      rw [if_neg hcond] at h1
      simp only [] at h1
      cases hc : SSMParameter.create path none true g.next_oid with
      | error e =>
        rw [hc] at h1
        simp at h1
      | ok p =>
        rw [hc] at h1
        simp only [Except.ok.injEq, Prod.mk.injEq] at h1
        obtain ⟨hp, hg⟩ := h1
        subst hp
        subst hg
        constructor
        · intro hbp
          unfold SSMParameterGroup.parameter
          simp [alookup_alistInsert_self]
        · intro p2 g2 h2
          unfold SSMParameterGroup.parameter at h2
          simp [alookup_alistInsert_self, Prod.mk.injEq] at h2
          rw [← h2.2]
    · refine ⟨fun hbe => absurd hbe hb, ?_⟩
      intro p2 g2 h2
      rw [if_pos ⟨hb, trivial⟩] at h1
      cases hv : SSMParameterGroup.validate_path path with
      | error e =>
        rw [hv] at h1
        simp at h1
      | ok u =>
        rw [hv] at h1
        simp only [] at h1
        cases hc : SSMParameter.create (g.base_path ++ path) none true g.next_oid with
        | error e =>
          rw [hc] at h1
          simp at h1
        | ok p =>
          rw [hc] at h1
          simp only [Except.ok.injEq, Prod.mk.injEq] at h1
          obtain ⟨hp, hg⟩ := h1
          subst hp
          subst hg
          have hneq : g.base_path ++ path ≠ path := append_ne_self_of_ne_empty _ _ hb
          have halk2 : alookup path (alistInsert (g.base_path ++ path) p g.params) = none := by
            rw [alookup_alistInsert_ne path (g.base_path ++ path) p g.params hneq, halk]
          unfold SSMParameterGroup.parameter at h2
          simp only [halk2] at h2
          rw [if_pos ⟨hb, trivial⟩] at h2
          rw [hv] at h2
          simp only [] at h2
          cases hc2 : SSMParameter.create (g.base_path ++ path) none true (g.next_oid + 1) with
          | error e =>
            rw [hc2] at h2
            simp at h2
          | ok p3 =>
            rw [hc2] at h2
            simp only [Except.ok.injEq, Prod.mk.injEq] at h2
            rw [← h2.2]
            show (alistInsert (g.base_path ++ path) p3
              (alistInsert (g.base_path ++ path) p g.params)).length =
              (alistInsert (g.base_path ++ path) p g.params).length
            apply length_alistInsert_isSome
            rw [alookup_alistInsert_self]
            rfl

/-- C5 witness: on a group without a base path, a second registration of `x`
returns the identical entry object and leaves the group unchanged. -/
theorem C5_witness :
    SSMParameterGroup.parameter groupPlainEmpty "x" true =
      Except.ok (entryPlainX, groupPlainX) ∧
    SSMParameterGroup.parameter groupPlainX "x" true =
      Except.ok (entryPlainX, groupPlainX) := by
  refine ⟨by decide, ?_⟩
  exact (C5_registration_semantics groupPlainEmpty "x" entryPlainX groupPlainX
    (by decide)).1 rfl

/-- C6: construction from a name of the shape `base:suffix` (one colon)
succeeds with the bare name, the parsed version and pinned=true exactly when
the suffix is a digit string denoting a positive integer; otherwise — suffix
`0` (or all zeros), a negative number, or non-numeric text — construction
fails with an `InvalidVersion` error. -/
theorem C6_version_suffix_parsing (base suffix : List Char)
    (hb : ':' ∉ base) (hs : ':' ∉ suffix) :
    SSMParameter.create (List.asString (base ++ ':' :: suffix)) none true 0 =
      (if pyIsDigit (List.asString suffix) ∧ 0 < digitsToNat suffix then
        Except.ok { oid := 0, name := List.asString base,
                    version := some (digitsToNat suffix), is_pinned_version := true,
                    pvalue := none, max_age := none, last_refresh_time := none,
                    with_decryption := true }
      else Except.error (CacheError.invalidVersion
        ("Invalid version: " ++ List.asString suffix))) := by
  have hne : List.asString (base ++ ':' :: suffix) ≠ "" := by
    intro he
    have hd := congrArg String.data he
    rw [data_asString] at hd
    simp at hd
  unfold SSMParameter.create
  rw [if_neg hne]
  unfold SSMParameter.parse_version
  rw [pySplit_asString_append base suffix hb hs]
  simp only [data_asString]
  by_cases hcond : pyIsDigit (List.asString suffix) ∧ 0 < digitsToNat suffix
  · rw [if_pos hcond, if_pos hcond]
  · rw [if_neg hcond, if_neg hcond]

/-- C6 witness: `foo:3` parses to name `foo`, version 3, pinned. -/
theorem C6_witness :
    (':' ∉ "foo".data) ∧
    SSMParameter.create "foo:3" none true 0 =
      Except.ok { oid := 0, name := "foo", version := some 3, is_pinned_version := true,
                  pvalue := none, max_age := none, last_refresh_time := none,
                  with_decryption := true } := by
  refine ⟨by decide, ?_⟩
  have e1 : List.asString ("foo".data ++ ':' :: "3".data) = "foo:3" := by decide
  have hc : pyIsDigit (List.asString "3".data) ∧ 0 < digitsToNat "3".data := by decide
  have h := C6_version_suffix_parsing "foo".data "3".data (by decide) (by decide)
  rw [e1] at h
  rw [if_pos hc] at h
  exact h.trans (by decide)

/-- C7: the error-triggered refresh wrapper. A first invocation that
succeeds returns its result with no refresh, no callback and a single
operation invocation. A first invocation raising an error of the designated
class triggers exactly one `refresh()` of the owner, one callback invocation
when a callback is supplied, and exactly one re-invocation with the retry
flag set to true; the result of that second invocation — success or error —
is returned as is, so a second error propagates uncaught. -/
theorem C7_wrapper_retry_once {σ ε α : Type} (refresh : σ → σ)
    (error_class : ε → Bool) (has_error_callback : Bool)
    (func : σ → Bool → Except ε α) (s : σ) :
    (∀ a, func s false = Except.ok a →
      Refreshable.refresh_on_error_invoke refresh error_class has_error_callback true func s =
        { owner := s, result := Except.ok a, refresh_count := 0, callback_count := 0,
          func_invocations := [false] }) ∧
    (∀ e, func s false = Except.error e → error_class e = true →
      Refreshable.refresh_on_error_invoke refresh error_class has_error_callback true func s =
        { owner := refresh s, result := func (refresh s) true, refresh_count := 1,
          callback_count := if has_error_callback then 1 else 0,
          func_invocations := [false, true] }) := by
  constructor
  · intro a ha
    unfold Refreshable.refresh_on_error_invoke
    rw [ha]
  · intro e he hcls
    unfold Refreshable.refresh_on_error_invoke
    rw [he]
    simp only []
    rw [if_pos hcls]
    simp

/-- C7 witness: an operation failing first (error 7, matched) and
succeeding on retry: the wrapped call returns the success result, the owner
was refreshed exactly once, the callback fired once, and the operation ran
twice with the retry flag false then true. -/
theorem C7_witness :
    ((fun (st : Nat) (retry : Bool) =>
      if retry then (Except.ok "done" : Except Nat String) else Except.error 7) 0 false =
        Except.error 7) ∧
    Refreshable.refresh_on_error_invoke (fun n => n + 1) (fun _ => true) true true
      (fun (st : Nat) (retry : Bool) =>
        if retry then (Except.ok "done" : Except Nat String) else Except.error 7) 0 =
      { owner := 1, result := Except.ok "done", refresh_count := 1, callback_count := 1,
        func_invocations := [false, true] } := by
  constructor
  · rfl
  · have h := (C7_wrapper_retry_once (fun n => n + 1) (fun _ => true) true
      (fun (st : Nat) (retry : Bool) =>
        if retry then (Except.ok "done" : Except Nat String) else Except.error 7) 0).2 7 rfl rfl
    exact h.trans (by decide)

/-- C8: the filter value set never exceeds 50 members: inserting into a
full set of 50 fails with an error and returns the filter unchanged, and
both the single-value and the bulk insertion operations preserve the
50-member bound. -/
theorem C8_filter_values_bound (f : SSMFilterState) (v : String) (vs : List String)
    (hf : f.values.length ≤ 50) :
    (f.values.length = 50 →
      SSMFilter.addValue f v =
        (f, some (CacheError.valueError
          "You cannot set more than 50 values for each filter."))) ∧
    (SSMFilter.addValue f v).1.values.length ≤ 50 ∧
    (SSMFilter.addValues f vs).1.values.length ≤ 50 := by
  refine ⟨?_, addValue_keeps_bound f v hf, addValues_keeps_bound vs f hf⟩
  intro h50
  unfold SSMFilter.addValue
  rw [if_pos h50]

/-- C8 witness: a filter with exactly 50 values rejects a further insertion
unchanged, and bulk insertion stays within the bound. -/
theorem C8_witness :
    filterFull.values.length ≤ 50 ∧
    SSMFilter.addValue filterFull "extra" =
      (filterFull, some (CacheError.valueError
        "You cannot set more than 50 values for each filter.")) ∧
    (SSMFilter.addValues filterFull ["extra", "other"]).1.values.length ≤ 50 := by
  refine ⟨by decide, ?_, ?_⟩
  · exact (C8_filter_values_bound filterFull "extra" ["extra", "other"] (by decide)).1
      (by decide)
  · exact (C8_filter_values_bound filterFull "extra" ["extra", "other"] (by decide)).2.2

/-- C10: a supplied name containing two or more `:` characters fails entry
construction, but with the generic two-target unpacking `ValueError`, not
with `InvalidVersion`. -/
theorem C10_multi_colon_plain_error (s : String)
    (h : 2 ≤ s.data.countP (fun ch => ch == ':')) :
    SSMParameter.create s none true 0 =
      Except.error (CacheError.valueError "too many values to unpack (expected 2)") := by
  have hne : s ≠ "" := by
    intro he
    subst he
    simp at h
  have hlen : 3 ≤ (pySplit s ':').length := by
    unfold pySplit
    rw [List.length_map, length_splitOnCharList]
    omega
  rcases hq : pySplit s ':' with _ | ⟨a, _ | ⟨b, _ | ⟨cc, rest⟩⟩⟩
  · rw [hq] at hlen
    simp at hlen
  · rw [hq] at hlen
    simp at hlen
  · rw [hq] at hlen
    simp at hlen
  · unfold SSMParameter.create
    rw [if_neg hne]
    unfold SSMParameter.parse_version
    rw [hq]

/-- C10 witness: `a:b:c` fails construction with the plain ValueError. -/
theorem C10_witness :
    2 ≤ "a:b:c".data.countP (fun ch => ch == ':') ∧
    SSMParameter.create "a:b:c" none true 0 =
      Except.error (CacheError.valueError "too many values to unpack (expected 2)") :=
  ⟨by decide, C10_multi_colon_plain_error "a:b:c" (by decide)⟩
